import Mathlib

/-!
Verification of the Jupyter-console session layer of `pyqt_code_editor`
(`pyqt_code_editor/components/jupyter_console.py`).

The embedding models the request-tracking state of a `JupyterConsoleTab`
(`_pending_messages`, `_internal_messages`, `_silent_messages`, and the
`concurrent.futures.Future` objects held by callers), the IOPub message
handler `_handle_iopub_message`, the dispatch operations
(`execute_silently`, `execute_and_get_future`, `change_directory`),
kernel shutdown, the tab registry of `JupyterConsole` (`close_tab`,
`add_console_tab`), and the preview computation of the workspace
introspection snippet built by `get_workspace_async`.
-/

namespace PyQtCodeEditor

/-- Python values as they can end up stored in a tracked future:
`None`, parsed JSON data (booleans, numbers, strings, lists, dicts),
or a raw text string. -/
inductive PyObj where
  | pynone : PyObj
  | pybool (b : Bool) : PyObj
  | pyint (n : Int) : PyObj
  | pystr (s : String) : PyObj
  | pylist (items : List PyObj) : PyObj
  | pydict (entries : List (String × PyObj)) : PyObj

/-- State of a `concurrent.futures.Future`: unresolved, resolved with a
value (`set_result`), or resolved with an exception (`set_exception`). -/
inductive FutureState where
  | unresolved : FutureState
  | result (v : PyObj) : FutureState
  | failed : FutureState

/-- `Future.done()`: true once the future holds a result or an exception. -/
def FutureState.done : FutureState → Bool
  | .unresolved => false
  | .result _ => true
  | .failed => true

/-- The value found under the key `text` of a message's content dict:
either an actual Python `str`, or some non-string value (on which the
handler's call to `.strip()` raises, landing in its `except` clause). -/
inductive PyText where
  | str (s : String) : PyText
  | nonStr : PyText
deriving DecidableEq

/-- The parts of an IOPub message's `content` dict that the handler reads. -/
structure MsgContent where
  text : Option PyText := none
  execution_state : Option String := none
deriving DecidableEq

/-- An inbound IOPub message: its `msg_type`, its `content`, and the
`msg_id` of its `parent_header` (the correlation id; absent when the
parent header carries no id). -/
structure KernelMsg where
  msg_type : String
  content : MsgContent
  parent_msg_id : Option String
deriving DecidableEq

/-- The request-tracking state of a `JupyterConsoleTab`.

`pendingKeys k` models `k in self._pending_messages`; `futures k` models
the state of the `Future` object that `_pending_messages[k]` points to
(the caller keeps its own reference, so the future's state survives the
eviction of `k` from the dict). `internal` and `silent` model membership
in `_internal_messages` and `_silent_messages`. -/
structure TabState where
  futures : String → Option FutureState
  pendingKeys : String → Bool
  internal : String → Bool
  silent : String → Bool

/-- Fresh tab: all three tracking structures empty. -/
def initState : TabState :=
  { futures := fun _ => none
    pendingKeys := fun _ => false
    internal := fun _ => false
    silent := fun _ => false }

/-- Point update of a boolean membership map. -/
def setFlag (f : String → Bool) (k : String) (b : Bool) : String → Bool :=
  fun x => if x = k then b else f x

/-- Point update of the future map. -/
def setFut (f : String → Option FutureState) (k : String) (v : FutureState) :
    String → Option FutureState :=
  fun x => if x = k then some v else f x

/-- Membership test for an optional message id (`None in s` is false). -/
def optMem (o : Option String) (s : String → Bool) : Bool :=
  match o with
  | none => false
  | some k => s k

/-- The output-bearing message kinds listed at the forwarding guard and
the capture branches of `_handle_iopub_message`. -/
def output_msg_types : List String := ["execute_result", "display_data", "stream", "error"]

/-- `_cleanup_message_ids`: evict a message id from `_pending_messages`,
`_internal_messages` and `_silent_messages` in one step. -/
def cleanup_message_ids (st : TabState) (mid : String) : TabState :=
  { st with
      pendingKeys := setFlag st.pendingKeys mid false
      internal := setFlag st.internal mid false
      silent := setFlag st.silent mid false }

/-- Python's `str.strip()` with no arguments: remove leading and
trailing whitespace. Implemented by structural recursion so that
concrete instances evaluate. -/
def pyStrip (s : String) : String :=
  String.mk (((s.toList.dropWhile Char.isWhitespace).reverse.dropWhile
    Char.isWhitespace).reverse)

/-- The stream branch of the tracked-request handling: when the pending
future is not yet done, strip the text (`.strip()` raises on a non-string
value, landing in the surrounding `except Exception` clause which calls
`future.set_exception`), and for non-empty stripped text resolve the
future with the parsed JSON value on success or with the stripped raw
text on `JSONDecodeError`. Empty stripped text resolves nothing.
`jsonLoads` models `json.loads`, returning `none` on `JSONDecodeError`. -/
def feed_future (jsonLoads : String → Option PyObj)
    (futures : String → Option FutureState) (mid : String) (t : Option PyText) :
    String → Option FutureState :=
  match futures mid with
  | none => futures
  | some fut =>
    if fut.done then futures
    else
      match t with
      | some (.str s) =>
        if pyStrip s ≠ "" then
          match jsonLoads (pyStrip s) with
          | some data => setFut futures mid (.result data)
          | none => setFut futures mid (.result (.pystr (pyStrip s)))
        else futures
      | some .nonStr => setFut futures mid .failed
      | none => futures

/-- The idle-status branch of the tracked-request handling before the
cleanup: if the future is still not done, set an empty dict as its
result. -/
def resolve_if_unresolved (futures : String → Option FutureState) (mid : String) :
    String → Option FutureState :=
  match futures mid with
  | some fut =>
    if fut.done then futures
    else setFut futures mid (.result (.pydict []))
  | none => futures

/-- The tracked-request part of `_handle_iopub_message` (the body of
`if msg_id in self._pending_messages:`): stream messages with text feed
the pending future; an idle status message resolves a still-unresolved
future with an empty dict and then runs `_cleanup_message_ids`. The two
branches only call `set_result` / `set_exception` on the tracked future
(and, for idle status, the cleanup), so they affect nothing but the
future map and — via cleanup — the three membership structures. -/
def track_pending (jsonLoads : String → Option PyObj) (st : TabState)
    (msg : KernelMsg) : TabState :=
  match msg.parent_msg_id with
  | none => st
  | some mid =>
    if st.pendingKeys mid then
      if msg.msg_type = "stream" ∧ (msg.content.text).isSome then
        { st with futures := feed_future jsonLoads st.futures mid msg.content.text }
      else if msg.msg_type = "status" ∧ msg.content.execution_state = some "idle" then
        cleanup_message_ids
          { st with futures := resolve_if_unresolved st.futures mid } mid
      else st
    else st

/-- Number of `execution_complete` emissions performed for one message:
the emission block is gated by `msg_id not in self._internal_messages`
evaluated after the tracked-request step (so after a possible cleanup),
while `is_silent` was computed from the silent set before that step.
Inside the gate, a non-silent idle status message emits once, and an
`execute_result` / `stream` / `display_data` / `error` message emits
once regardless of silence. -/
def emit_count (stAfterTrack : TabState) (is_silent : Bool) (msg : KernelMsg) : Nat :=
  if ¬ optMem msg.parent_msg_id stAfterTrack.internal then
    (if ¬ is_silent ∧ msg.msg_type = "status" ∧
        msg.content.execution_state = some "idle" then 1 else 0) +
    (if msg.msg_type = "execute_result" then 1
     else if msg.msg_type = "stream" ∨ msg.msg_type = "display_data" ∨
         msg.msg_type = "error" then 1 else 0)
  else 0

/-- Outcome of handling one IOPub message: the new tracking state, whether
the message was forwarded to the original widget handler, and how many
`execution_complete` emissions it produced. -/
structure HandlerResult where
  state : TabState
  forwarded : Bool
  emits : Nat

/-- `_handle_iopub_message`: compute `is_silent` from the current silent
set, run the tracked-request step, emit `execution_complete` as gated by
the (post-step) internal set, and forward the message to the original
IOPub handler unless it is a silent request's output-bearing message. -/
def handle_iopub_message (jsonLoads : String → Option PyObj) (st : TabState)
    (msg : KernelMsg) : HandlerResult :=
  let is_silent := optMem msg.parent_msg_id st.silent
  let st1 := track_pending jsonLoads st msg
  { state := st1
    forwarded := decide (¬ is_silent = true ∨ msg.msg_type ∉ output_msg_types)
    emits := emit_count st1 is_silent msg }

/-- Every `execution_complete` emission is connected to
`_on_execution_complete`, which unconditionally schedules a (debounced)
workspace refresh; so the refreshes a message triggers are exactly its
emissions. -/
def refreshes_triggered (r : HandlerResult) : Nat := r.emits

/-- `execute_silently`: the kernel returns a message id (`none` models a
falsy id); a real id is added to `_internal_messages` when `internal`
and to `_silent_messages` when `hide_output`. -/
def execute_silently (st : TabState) (mid : Option String)
    (internal hide_output : Bool) : TabState :=
  match mid with
  | none => st
  | some id =>
    let st1 := if internal then { st with internal := setFlag st.internal id true } else st
    if hide_output then { st1 with silent := setFlag st1.silent id true } else st1

/-- `execute_and_get_future`: create a fresh unresolved future, dispatch
the code via `execute_silently(internal=True, hide_output=True)`, and on
a real message id register the future in `_pending_messages` (on a falsy
id the future is resolved with `None` at once and never registered). -/
def execute_and_get_future (st : TabState) (mid : Option String) : TabState :=
  match mid with
  | none => st
  | some id =>
    let st1 := execute_silently st (some id) true true
    { st1 with
        pendingKeys := setFlag st1.pendingKeys id true
        futures := setFut st1.futures id .unresolved }

/-- `change_directory`: when the directory exists, dispatch the `os.chdir`
snippet via `execute_silently` with its default flags
(`internal=False, hide_output=True`); otherwise do nothing. -/
def change_directory (st : TabState) (mid : Option String) (dirExists : Bool) : TabState :=
  if dirExists then execute_silently st mid false true else st

/-- A tab's session state including its kernel channels and process. -/
structure SessionState where
  tab : TabState
  channels_running : Bool
  kernel_alive : Bool

/-- `shutdown_kernel`: stop the client channels and shut the kernel down.
It touches nothing else — in particular none of the tracking structures
and none of the pending futures. -/
def shutdown_kernel (s : SessionState) : SessionState :=
  { s with channels_running := false, kernel_alive := false }

/-- One console tab of the registry, identified by the identity of its
widget and carrying the kernel name it was created with. -/
structure Tab where
  id : Nat
  kernel_name : String
deriving DecidableEq

/-- The `JupyterConsole` tab registry: the ordered tabs of `tab_widget`,
a per-widget count of `shutdown_kernel` invocations, a supply of fresh
widget identities, and the configured default kernel. -/
structure ConsoleState where
  tabs : List Tab
  shutdowns : Nat → Nat
  nextId : Nat
  default_kernel : String

/-- `add_console_tab`: construct a fresh `JupyterConsoleTab` with the given
kernel name and append it to the tab widget. -/
def add_console_tab (st : ConsoleState) (kernel : String) : ConsoleState :=
  { st with
      tabs := st.tabs ++ [{ id := st.nextId, kernel_name := kernel }]
      nextId := st.nextId + 1 }

/-- `close_tab`: look the widget up by index (`widget(index)` is null for
an invalid index, in which case nothing happens); otherwise invoke its
`shutdown_kernel`, remove the tab, and — if the registry became empty —
immediately add a new tab with the default kernel. -/
def close_tab (st : ConsoleState) (index : Nat) : ConsoleState :=
  match st.tabs.get? index with
  | none => st
  | some w =>
    let st1 : ConsoleState :=
      { st with
          shutdowns := fun i => if i = w.id then st.shutdowns i + 1 else st.shutdowns i
          tabs := st.tabs.eraseIdx index }
    if st1.tabs.isEmpty then add_console_tab st1 st.default_kernel else st1

/-- The simple-type branch of the workspace snippet from
`get_workspace_async`, acting on `r = repr(value)` for a `str` / `int` /
`float` / `bool` binding. The try-body sets `__preview = repr(__var_value)`;
when `len(__preview) > 50` it then executes `preview = preview[:47] + '...'`,
whose right-hand side reads the global name `preview` — which the snippet
never binds — so it raises `NameError`, and the per-variable
`except Exception as e` handler stores `f"<Error: {str(e)}>"` instead. -/
def simple_preview (r : String) : String :=
  if r.length > 50 then "<Error: name \x27preview\x27 is not defined>"
  else r

/-- Modelled from the spec: the preview the claim describes for simple
types — the repr truncated to a fixed maximum length of 50 characters,
with longer representations shortened to their first 47 characters plus
an ellipsis. -/
def claimed_simple_preview (r : String) : String :=
  if r.length > 50 then String.mk (r.toList.take 47) ++ "..."
  else r

/-- States of a tab's tracking structures reachable from a fresh tab by
any sequence of dispatch operations (`execute_silently` with arbitrary
flags, `execute_and_get_future`, `change_directory`) and inbound IOPub
message handling. -/
inductive Reachable (jsonLoads : String → Option PyObj) : TabState → Prop where
  | init : Reachable jsonLoads initState
  | silently (st : TabState) (mid : Option String) (internal hide_output : Bool) :
      Reachable jsonLoads st →
      Reachable jsonLoads (execute_silently st mid internal hide_output)
  | getFuture (st : TabState) (mid : Option String) :
      Reachable jsonLoads st →
      Reachable jsonLoads (execute_and_get_future st mid)
  | chdir (st : TabState) (mid : Option String) (dirExists : Bool) :
      Reachable jsonLoads st →
      Reachable jsonLoads (change_directory st mid dirExists)
  | handle (st : TabState) (msg : KernelMsg) :
      Reachable jsonLoads st →
      Reachable jsonLoads (handle_iopub_message jsonLoads st msg).state

/-! ### Basic lemmas about the handler and the dispatch operations -/

theorem handle_state (f : String → Option PyObj) (st : TabState) (msg : KernelMsg) :
    (handle_iopub_message f st msg).state = track_pending f st msg := rfl

theorem handle_emits (f : String → Option PyObj) (st : TabState) (msg : KernelMsg) :
    (handle_iopub_message f st msg).emits =
      emit_count (track_pending f st msg) (optMem msg.parent_msg_id st.silent) msg := rfl

theorem handle_forwarded (f : String → Option PyObj) (st : TabState) (msg : KernelMsg) :
    (handle_iopub_message f st msg).forwarded =
      decide (¬ optMem msg.parent_msg_id st.silent = true ∨
        msg.msg_type ∉ output_msg_types) := rfl

/-- Either a message leaves all three membership structures untouched
(modifying at most the future map), or it is an idle status message of a
pending request and the resulting state is exactly the cleanup of the
(future-resolved) state at that id. -/
theorem track_pending_cases (f : String → Option PyObj) (st : TabState) (msg : KernelMsg) :
    ((track_pending f st msg).pendingKeys = st.pendingKeys ∧
     (track_pending f st msg).internal = st.internal ∧
     (track_pending f st msg).silent = st.silent) ∨
    (∃ mid, msg.parent_msg_id = some mid ∧ msg.msg_type = "status" ∧
      msg.content.execution_state = some "idle" ∧ st.pendingKeys mid = true ∧
      track_pending f st msg =
        cleanup_message_ids
          { st with futures := resolve_if_unresolved st.futures mid } mid) := by
  unfold track_pending
  rcases hp : msg.parent_msg_id with _ | mid
  · exact Or.inl ⟨rfl, rfl, rfl⟩
  · by_cases hpk : st.pendingKeys mid = true
    · simp only [hpk, if_true]
      by_cases hs : msg.msg_type = "stream" ∧ (msg.content.text).isSome
      · rw [if_pos hs]
        exact Or.inl ⟨rfl, rfl, rfl⟩
      · rw [if_neg hs]
        by_cases hi : msg.msg_type = "status" ∧ msg.content.execution_state = some "idle"
        · rw [if_pos hi]
          exact Or.inr ⟨mid, rfl, hi.1, hi.2, hpk, rfl⟩
        · rw [if_neg hi]
          exact Or.inl ⟨rfl, rfl, rfl⟩
    · simp only [Bool.not_eq_true] at hpk
      simp only [hpk, if_false]
      exact Or.inl ⟨rfl, rfl, rfl⟩

theorem execute_silently_pendingKeys (st : TabState) (mid : Option String)
    (internal hide_output : Bool) :
    (execute_silently st mid internal hide_output).pendingKeys = st.pendingKeys := by
  unfold execute_silently
  rcases mid with _ | id
  · rfl
  · by_cases hi : internal = true <;> by_cases hh : hide_output = true <;>
      simp [hi, hh]

theorem execute_silently_futures (st : TabState) (mid : Option String)
    (internal hide_output : Bool) :
    (execute_silently st mid internal hide_output).futures = st.futures := by
  unfold execute_silently
  rcases mid with _ | id
  · rfl
  · by_cases hi : internal = true <;> by_cases hh : hide_output = true <;>
      simp [hi, hh]

theorem execute_silently_internal_mono (st : TabState) (mid : Option String)
    (internal hide_output : Bool) (id : String) (h : st.internal id = true) :
    (execute_silently st mid internal hide_output).internal id = true := by
  unfold execute_silently
  rcases mid with _ | k
  · exact h
  · by_cases hi : internal = true <;> by_cases hh : hide_output = true <;>
      by_cases hk : id = k <;> simp [hi, hh, hk, setFlag, h] <;> exact hk ▸ h

theorem execute_silently_silent_mono (st : TabState) (mid : Option String)
    (internal hide_output : Bool) (id : String) (h : st.silent id = true) :
    (execute_silently st mid internal hide_output).silent id = true := by
  unfold execute_silently
  rcases mid with _ | k
  · exact h
  · by_cases hi : internal = true <;> by_cases hh : hide_output = true <;>
      by_cases hk : id = k <;> simp [hi, hh, hk, setFlag, h] <;> exact hk ▸ h

/-- Reachability invariant: every id tracked in `_pending_messages` is
also a member of `_internal_messages` and `_silent_messages`, because
the only operation that registers a pending future,
`execute_and_get_future`, dispatches with `internal=True` and
`hide_output=True`, and the cleanup evicts an id from the three
structures together. -/
theorem pending_mem_sets (f : String → Option PyObj) {st : TabState}
    (h : Reachable f st) :
    ∀ id, st.pendingKeys id = true → st.internal id = true ∧ st.silent id = true := by
  induction h with
  | init =>
    intro id hp
    exact absurd hp (by simp [initState])
  | silently st mid internal hide_output _ ih =>
    intro id hp
    rw [execute_silently_pendingKeys] at hp
    obtain ⟨h1, h2⟩ := ih id hp
    exact ⟨execute_silently_internal_mono st mid internal hide_output id h1,
      execute_silently_silent_mono st mid internal hide_output id h2⟩
  | getFuture st mid _ ih =>
    intro id hp
    rcases mid with _ | nid
    · exact ih id hp
    · by_cases hk : id = nid
      · subst hk
        constructor
        · show (execute_silently st (some id) true true).internal id = true
          simp [execute_silently, setFlag]
        · show (execute_silently st (some id) true true).silent id = true
          simp [execute_silently, setFlag]
      · have hp2 : (execute_silently st (some nid) true true).pendingKeys id = true := by
          have : (execute_and_get_future st (some nid)).pendingKeys id =
              setFlag (execute_silently st (some nid) true true).pendingKeys nid true id := rfl
          rw [this, setFlag, if_neg hk] at hp
          exact hp
        rw [execute_silently_pendingKeys] at hp2
        obtain ⟨h1, h2⟩ := ih id hp2
        exact ⟨execute_silently_internal_mono st (some nid) true true id h1,
          execute_silently_silent_mono st (some nid) true true id h2⟩
  | chdir st mid dirExists _ ih =>
    intro id hp
    unfold change_directory at *
    by_cases hde : dirExists = true
    · rw [if_pos hde] at hp ⊢
      rw [execute_silently_pendingKeys] at hp
      obtain ⟨h1, h2⟩ := ih id hp
      exact ⟨execute_silently_internal_mono st mid false true id h1,
        execute_silently_silent_mono st mid false true id h2⟩
    · rw [if_neg hde] at hp ⊢
      exact ih id hp
  | handle st msg _ ih =>
    intro id hp
    rw [handle_state] at hp ⊢
    rcases track_pending_cases f st msg with ⟨e1, e2, e3⟩ | ⟨mid, _, _, _, _, heq⟩
    · rw [e1] at hp
      rw [e2, e3]
      exact ih id hp
    · rw [heq] at hp ⊢
      by_cases hk : id = mid
      · subst hk
        exact absurd hp (by simp [cleanup_message_ids, setFlag])
      · have hp2 : st.pendingKeys id = true := by
          simpa [cleanup_message_ids, setFlag, hk] using hp
        obtain ⟨h1, h2⟩ := ih id hp2
        constructor
        · simpa [cleanup_message_ids, setFlag, hk] using h1
        · simpa [cleanup_message_ids, setFlag, hk] using h2

/-- Inside the emission gate, a message with an internal correlation id
never emits: either the id survives the tracked-request step in the
internal set and the gate blocks, or the step was an idle-status cleanup
of a pending request, whose silent-set membership (by the invariant)
suppresses the status emission while the status kind matches none of the
output-capture branches. -/
theorem emits_zero_of_internal (f : String → Option PyObj) {st : TabState}
    (h : Reachable f st) (msg : KernelMsg) (id : String)
    (hpid : msg.parent_msg_id = some id) (hint : st.internal id = true) :
    (handle_iopub_message f st msg).emits = 0 := by
  rw [handle_emits]
  rcases track_pending_cases f st msg with ⟨_, e2, _⟩ | ⟨mid, hpid2, hstat, _, hpk, heq⟩
  · unfold emit_count
    rw [e2]
    simp [optMem, hpid, hint]
  · rw [hpid] at hpid2
    injection hpid2 with hmid
    subst hmid
    have hsil : st.silent id = true := (pending_mem_sets f h id hpk).2
    unfold emit_count
    rw [heq]
    simp [cleanup_message_ids, setFlag, optMem, hpid, hsil, hstat]

/-- A message with a silent correlation id and a non-output message kind
never emits: the silent flag (read before the tracked-request step)
suppresses the idle-status emission, and the capture branches require an
output-bearing kind. -/
theorem emits_zero_of_silent_nonoutput (f : String → Option PyObj) (st : TabState)
    (msg : KernelMsg) (id : String)
    (hpid : msg.parent_msg_id = some id) (hsil : st.silent id = true)
    (hout : msg.msg_type ∉ output_msg_types) :
    (handle_iopub_message f st msg).emits = 0 := by
  rw [handle_emits]
  unfold emit_count
  have h1 : optMem msg.parent_msg_id st.silent = true := by
    rw [hpid]
    exact hsil
  simp only [output_msg_types, List.mem_cons, List.not_mem_nil, or_false] at hout
  push_neg at hout
  obtain ⟨h2, h3, h4, h5⟩ := hout
  rw [h1]
  simp [h2, h3, h4, h5]

/-! ### Concrete fixtures used by witnesses and counterexamples -/

/-- A `json.loads` model for which nothing parses. -/
def jsonNone : String → Option PyObj := fun _ => none

/-- A `json.loads` model parsing exactly the empty JSON array. -/
def jsonList : String → Option PyObj :=
  fun s => if s = "[]" then some (.pylist []) else none

/-- A stream message with string text, correlated to `mid`. -/
def msgStream (mid s : String) : KernelMsg :=
  { msg_type := "stream"
    content := { text := some (.str s), execution_state := none }
    parent_msg_id := some mid }

/-- A stream message whose content's `text` entry is not a string. -/
def msgStreamBad (mid : String) : KernelMsg :=
  { msg_type := "stream"
    content := { text := some .nonStr, execution_state := none }
    parent_msg_id := some mid }

/-- An idle status message correlated to `mid`. -/
def msgStatusIdle (mid : String) : KernelMsg :=
  { msg_type := "status"
    content := { text := none, execution_state := some "idle" }
    parent_msg_id := some mid }

/-- State after `change_directory` on a fresh tab dispatched the
`os.chdir` snippet as message "d": "d" is silent but not pending. -/
def stCd : TabState := change_directory initState (some "d") true

/-- State after `execute_and_get_future` on a fresh tab registered the
future of message "a". -/
def stGF : TabState := execute_and_get_future initState (some "a")

/-- State after a bare `execute_silently(internal=True, hide_output=False)`
dispatched message "q". -/
def stInt : TabState := execute_silently initState (some "q") true false

/-! ### The claims -/

/-- C1: for every request dispatched via `execute_silently` with
`internal=True`, no `execution_complete` event is emitted for any inbound
message whose correlation id equals that request id, for as long as the
id remains in `_internal_messages`: in every reachable state in which the
id is internal, handling any message correlated to it emits zero times. -/
theorem internal_requests_never_emit_execution_complete
    (f : String → Option PyObj) (st : TabState) (h : Reachable f st)
    (msg : KernelMsg) (id : String)
    (hpid : msg.parent_msg_id = some id) (hint : st.internal id = true) :
    (handle_iopub_message f st msg).emits = 0 :=
  emits_zero_of_internal f h msg id hpid hint

theorem internal_requests_never_emit_execution_complete_witness :
    stInt.internal "q" = true ∧
    (handle_iopub_message jsonNone stInt (msgStream "q" "out")).emits = 0 :=
  ⟨rfl, internal_requests_never_emit_execution_complete jsonNone stInt
    (Reachable.silently initState (some "q") true false Reachable.init)
    (msgStream "q" "out") "q" rfl rfl⟩

/-- C2: an inbound message is forwarded to the original IOPub handler
(the visible display surface) if and only if it is not the case that its
correlation id is silent and its kind is one of `execute_result`,
`display_data`, `stream`, `error`; since `"status"` is not among these
kinds, status messages of silent requests are still forwarded. -/
theorem forwarded_iff_not_silent_output (f : String → Option PyObj)
    (st : TabState) (msg : KernelMsg) :
    (handle_iopub_message f st msg).forwarded = true ↔
      ¬ (optMem msg.parent_msg_id st.silent = true ∧
          msg.msg_type ∈ output_msg_types) := by
  rw [handle_forwarded]
  cases hb : optMem msg.parent_msg_id st.silent <;> simp [hb]

/-- C6 as stated is false: the state `stCd` is reachable (a fresh tab
followed by `change_directory`, which dispatches via `execute_silently`
with default flags), its id "d" is in the silent set, and yet handling a
stream message correlated to "d" emits `execution_complete` once — which
schedules the debounced workspace refresh. -/
theorem silent_stream_triggers_refresh :
    Reachable jsonNone stCd ∧ stCd.silent "d" = true ∧
    stCd.internal "d" = false ∧
    refreshes_triggered (handle_iopub_message jsonNone stCd (msgStream "d" "x")) = 1 :=
  ⟨Reachable.chdir initState (some "d") true Reachable.init, rfl, rfl, rfl⟩

/-- C6 amended: no workspace refresh is triggered by a message whose
correlation id is in the internal set, nor by one whose id is in the
silent set when its kind is not output-bearing (in particular the idle
status completion of a silent request); output-bearing messages of
silent non-internal requests do still trigger the refresh. -/
theorem no_refresh_for_internal_or_silent_nonoutput
    (f : String → Option PyObj) (st : TabState) (h : Reachable f st)
    (msg : KernelMsg) (id : String) (hpid : msg.parent_msg_id = some id)
    (hcond : st.internal id = true ∨
      (st.silent id = true ∧ msg.msg_type ∉ output_msg_types)) :
    refreshes_triggered (handle_iopub_message f st msg) = 0 := by
  rcases hcond with hint | ⟨hsil, hout⟩
  · exact emits_zero_of_internal f h msg id hpid hint
  · exact emits_zero_of_silent_nonoutput f st msg id hpid hsil hout

theorem no_refresh_for_internal_or_silent_nonoutput_witness :
    stCd.silent "d" = true ∧
    refreshes_triggered (handle_iopub_message jsonNone stCd (msgStatusIdle "d")) = 0 :=
  ⟨rfl, no_refresh_for_internal_or_silent_nonoutput jsonNone stCd
    (Reachable.chdir initState (some "d") true Reachable.init)
    (msgStatusIdle "d") "d" rfl (Or.inr ⟨rfl, by decide⟩)⟩

/-! ### Evaluation lemmas for the three message shapes -/

theorem handle_msgStream_state (f : String → Option PyObj) (st : TabState)
    (mid s : String) (hp : st.pendingKeys mid = true) :
    (handle_iopub_message f st (msgStream mid s)).state =
      { st with futures := feed_future f st.futures mid (some (.str s)) } := by
  rw [handle_state]
  unfold track_pending msgStream
  simp [hp]

theorem handle_msgStreamBad_state (f : String → Option PyObj) (st : TabState)
    (mid : String) (hp : st.pendingKeys mid = true) :
    (handle_iopub_message f st (msgStreamBad mid)).state =
      { st with futures := feed_future f st.futures mid (some .nonStr) } := by
  rw [handle_state]
  unfold track_pending msgStreamBad
  simp [hp]

theorem handle_msgStatusIdle_state (f : String → Option PyObj) (st : TabState)
    (mid : String) (hp : st.pendingKeys mid = true) :
    (handle_iopub_message f st (msgStatusIdle mid)).state =
      cleanup_message_ids
        { st with futures := resolve_if_unresolved st.futures mid } mid := by
  rw [handle_state]
  unfold track_pending msgStatusIdle
  simp [hp]

/-- C3: an idle status message whose id is pending resolves a
still-unresolved future with the empty dict (a done future keeps its
value) and then evicts the id from all three tracking structures. -/
theorem idle_status_resolves_and_evicts (f : String → Option PyObj)
    (st : TabState) (mid : String) (fs : FutureState)
    (hp : st.pendingKeys mid = true) (hf : st.futures mid = some fs) :
    (handle_iopub_message f st (msgStatusIdle mid)).state.futures mid =
      some (if fs.done then fs else .result (.pydict [])) ∧
    (handle_iopub_message f st (msgStatusIdle mid)).state.pendingKeys mid = false ∧
    (handle_iopub_message f st (msgStatusIdle mid)).state.internal mid = false ∧
    (handle_iopub_message f st (msgStatusIdle mid)).state.silent mid = false := by
  rw [handle_msgStatusIdle_state f st mid hp]
  refine ⟨?_, ?_, ?_, ?_⟩
  · show resolve_if_unresolved st.futures mid mid = _
    unfold resolve_if_unresolved
    rw [hf]
    cases hd : fs.done <;> simp [hd, hf, setFut]
  · simp [cleanup_message_ids, setFlag]
  · simp [cleanup_message_ids, setFlag]
  · simp [cleanup_message_ids, setFlag]

theorem idle_status_resolves_and_evicts_witness :
    stGF.pendingKeys "a" = true ∧
    (handle_iopub_message jsonNone stGF (msgStatusIdle "a")).state.futures "a" =
      some (.result (.pydict [])) ∧
    (handle_iopub_message jsonNone stGF (msgStatusIdle "a")).state.pendingKeys "a" = false ∧
    (handle_iopub_message jsonNone stGF (msgStatusIdle "a")).state.internal "a" = false ∧
    (handle_iopub_message jsonNone stGF (msgStatusIdle "a")).state.silent "a" = false := by
  obtain ⟨h1, h2, h3, h4⟩ :=
    idle_status_resolves_and_evicts jsonNone stGF "a" .unresolved rfl rfl
  exact ⟨rfl, h1, h2, h3, h4⟩

/-- C4 is false as stated: `stCd` is reachable (a `change_directory`
dispatch on a fresh tab), its message id "d" is not a key of
`_pending_messages`, and yet "d" is in the silent set — a residual
entry, because bare `execute_silently` dispatches enter the sets
without registering in `_pending_messages`. -/
theorem residual_silent_entry_after_change_directory :
    Reachable jsonNone stCd ∧ stCd.pendingKeys "d" = false ∧ stCd.silent "d" = true :=
  ⟨Reachable.chdir initState (some "d") true Reachable.init, rfl, rfl⟩

/-- C4 amended: in every reachable state, every id that is a key of
`_pending_messages` is in both the internal and silent sets, and
whenever handling a message removes an id from `_pending_messages` it
simultaneously removes it from both sets; ids dispatched by bare
`execute_silently` (as in `change_directory`) enter the sets with no
pending entry, so absence from `_pending_messages` alone does not imply
absence from the sets. -/
theorem pending_ids_in_sets_and_evicted_together
    (f : String → Option PyObj) (st : TabState) (h : Reachable f st)
    (id : String) (msg : KernelMsg) :
    (st.pendingKeys id = true → st.internal id = true ∧ st.silent id = true) ∧
    (st.pendingKeys id = true →
      (handle_iopub_message f st msg).state.pendingKeys id = false →
      (handle_iopub_message f st msg).state.internal id = false ∧
      (handle_iopub_message f st msg).state.silent id = false) := by
  constructor
  · exact pending_mem_sets f h id
  · intro hp hq
    rw [handle_state] at hq ⊢
    rcases track_pending_cases f st msg with ⟨e1, _, _⟩ | ⟨mid, _, _, _, _, heq⟩
    · rw [e1, hp] at hq
      exact absurd hq (by simp)
    · rw [heq] at hq ⊢
      by_cases hk : id = mid
      · subst hk
        constructor <;> simp [cleanup_message_ids, setFlag]
      · have hcontr : st.pendingKeys id = false := by
          simpa [cleanup_message_ids, setFlag, hk] using hq
        rw [hp] at hcontr
        exact absurd hcontr (by simp)

theorem pending_ids_in_sets_and_evicted_together_witness :
    (stGF.internal "a" = true ∧ stGF.silent "a" = true) ∧
    ((handle_iopub_message jsonNone stGF (msgStatusIdle "a")).state.internal "a" = false ∧
     (handle_iopub_message jsonNone stGF (msgStatusIdle "a")).state.silent "a" = false) := by
  obtain ⟨w1, w2⟩ := pending_ids_in_sets_and_evicted_together jsonNone stGF
    (Reachable.getFuture initState (some "a") Reachable.init) "a" (msgStatusIdle "a")
  exact ⟨w1 rfl, w2 rfl rfl⟩

/-- C7: for a stream message whose id is pending with an unresolved
future and whose stripped text is non-empty, the future is resolved with
the parsed JSON value when `json.loads` succeeds and with the stripped
raw text when parsing fails; and when processing raises (the content's
`text` entry is not a string, so `.strip()` raises), the future — and
only that future — is resolved to the exception state. -/
theorem stream_resolution_cases (f : String → Option PyObj) (st : TabState)
    (mid s : String) (hp : st.pendingKeys mid = true)
    (hf : st.futures mid = some .unresolved) (hne : pyStrip s ≠ "") :
    (∀ d, f (pyStrip s) = some d →
      (handle_iopub_message f st (msgStream mid s)).state.futures mid =
        some (.result d)) ∧
    (f (pyStrip s) = none →
      (handle_iopub_message f st (msgStream mid s)).state.futures mid =
        some (.result (.pystr (pyStrip s)))) ∧
    (handle_iopub_message f st (msgStreamBad mid)).state.futures mid = some .failed ∧
    (∀ k, k ≠ mid →
      (handle_iopub_message f st (msgStreamBad mid)).state.futures k = st.futures k) := by
  refine ⟨fun d hd => ?_, fun hn => ?_, ?_, fun k hk => ?_⟩
  · rw [handle_msgStream_state f st mid s hp]
    show feed_future f st.futures mid (some (.str s)) mid = _
    unfold feed_future
    rw [hf]
    simp [FutureState.done, hne, hd, setFut]
  · rw [handle_msgStream_state f st mid s hp]
    show feed_future f st.futures mid (some (.str s)) mid = _
    unfold feed_future
    rw [hf]
    simp [FutureState.done, hne, hn, setFut]
  · rw [handle_msgStreamBad_state f st mid hp]
    show feed_future f st.futures mid (some .nonStr) mid = _
    unfold feed_future
    rw [hf]
    simp [FutureState.done, setFut]
  · rw [handle_msgStreamBad_state f st mid hp]
    show feed_future f st.futures mid (some .nonStr) k = _
    unfold feed_future
    rw [hf]
    simp [FutureState.done, setFut, hk]

theorem stream_resolution_cases_witness :
    (handle_iopub_message jsonList stGF (msgStream "a" "[]")).state.futures "a" =
      some (.result (.pylist [])) ∧
    (handle_iopub_message jsonNone stGF (msgStream "a" "xy")).state.futures "a" =
      some (.result (.pystr "xy")) ∧
    (handle_iopub_message jsonNone stGF (msgStreamBad "a")).state.futures "a" =
      some .failed :=
  ⟨(stream_resolution_cases jsonList stGF "a" "[]" rfl rfl (by decide)).1
      (.pylist []) rfl,
   (stream_resolution_cases jsonNone stGF "a" "xy" rfl rfl (by decide)).2.1 rfl,
   (stream_resolution_cases jsonNone stGF "a" "xy" rfl rfl (by decide)).2.2.1⟩

/-- C10: a stream message whose stripped text is empty does not resolve
the pending future (the `if output:` guard skips resolution); the future
is resolved — with the empty dict — only when the idle status message
for that id arrives. -/
theorem whitespace_stream_defers_resolution (f : String → Option PyObj)
    (st : TabState) (mid s : String) (hp : st.pendingKeys mid = true)
    (hf : st.futures mid = some .unresolved) (hws : pyStrip s = "") :
    (handle_iopub_message f st (msgStream mid s)).state.futures mid =
      some .unresolved ∧
    (handle_iopub_message f
        (handle_iopub_message f st (msgStream mid s)).state
        (msgStatusIdle mid)).state.futures mid = some (.result (.pydict [])) := by
  have hfeed : feed_future f st.futures mid (some (.str s)) = st.futures := by
    unfold feed_future
    rw [hf]
    simp [FutureState.done, hws]
  have hst1 : (handle_iopub_message f st (msgStream mid s)).state = st := by
    rw [handle_msgStream_state f st mid s hp, hfeed]
  constructor
  · rw [hst1, hf]
  · rw [hst1, handle_msgStatusIdle_state f st mid hp]
    show resolve_if_unresolved st.futures mid mid = _
    unfold resolve_if_unresolved
    rw [hf]
    simp [FutureState.done, setFut]

theorem whitespace_stream_defers_resolution_witness :
    (handle_iopub_message jsonNone stGF (msgStream "a" "  ")).state.futures "a" =
      some .unresolved ∧
    (handle_iopub_message jsonNone
        (handle_iopub_message jsonNone stGF (msgStream "a" "  ")).state
        (msgStatusIdle "a")).state.futures "a" = some (.result (.pydict [])) :=
  whitespace_stream_defers_resolution jsonNone stGF "a" "  " rfl rfl (by decide)

/-- A session whose tab registered the pending request "a" via
`execute_and_get_future`, with channels and kernel up. -/
def sessGF : SessionState :=
  { tab := stGF, channels_running := true, kernel_alive := true }

/-- C5 is violated by the code: `shutdown_kernel` (invoked by
`close_tab`) stops the client channels and shuts the kernel down but
never resolves or cancels any entry of `_pending_messages`, so a future
that was unresolved when its session is closed stays unresolved
forever — an `execute_and_return_result` caller would block until its
timeout. Evaluated on a session holding the pending request "a". -/
theorem shutdown_leaves_future_unresolved :
    sessGF.tab.pendingKeys "a" = true ∧
    sessGF.tab.futures "a" = some .unresolved ∧
    (shutdown_kernel sessGF).channels_running = false ∧
    (shutdown_kernel sessGF).kernel_alive = false ∧
    (shutdown_kernel sessGF).tab.futures "a" = some .unresolved ∧
    (shutdown_kernel sessGF).tab.pendingKeys "a" = true :=
  ⟨rfl, rfl, rfl, rfl, rfl, rfl⟩

/-- C8: closing the only tab of the registry invokes the closed tab's
kernel shutdown exactly once (its shutdown counter rises by one and no
other counter changes) and leaves the registry with exactly one tab —
a newly created one running the default kernel. -/
theorem close_last_tab_respawns_default (st : ConsoleState) (t : Tab)
    (htabs : st.tabs = [t]) :
    (close_tab st 0).tabs = [{ id := st.nextId, kernel_name := st.default_kernel }] ∧
    (close_tab st 0).shutdowns t.id = st.shutdowns t.id + 1 ∧
    (∀ j, j ≠ t.id → (close_tab st 0).shutdowns j = st.shutdowns j) := by
  refine ⟨?_, ?_, fun j hj => ?_⟩
  · simp [close_tab, htabs, add_console_tab]
  · simp [close_tab, htabs, add_console_tab]
  · simp [close_tab, htabs, add_console_tab, hj]

/-- A registry holding exactly one tab. -/
def console1 : ConsoleState :=
  { tabs := [{ id := 0, kernel_name := "python3" }]
    shutdowns := fun _ => 0
    nextId := 1
    default_kernel := "python3" }

theorem close_last_tab_respawns_default_witness :
    (close_tab console1 0).tabs = [{ id := 1, kernel_name := "python3" }] ∧
    (close_tab console1 0).shutdowns 0 = 1 ∧
    (close_tab console1 0).shutdowns 7 = 0 := by
  obtain ⟨w1, w2, w3⟩ := close_last_tab_respawns_default console1
    { id := 0, kernel_name := "python3" } rfl
  exact ⟨w1, w2, w3 7 (by decide)⟩

/-- The repr of the Python string `'a'*60`: a quote, sixty `a`s, a
quote — 62 characters, above the 50-character cap. -/
def reprLong : String := "\x27" ++ String.mk (List.replicate 60 'a') ++ "\x27"

/-- C9 is violated by the code: in the workspace snippet's simple-type
branch, the truncation step is written `preview = preview[:47] + '...'`
— it assigns and reads the unbound name `preview` instead of
`__preview` — so whenever `len(repr(value)) > 50` the right-hand side
raises `NameError: name 'preview' is not defined`, the per-variable
`except` handler stores the error placeholder, and even if `preview`
were bound, `__preview` would never be truncated. Evaluated at the repr
of `'a'*60` (length 62): the computed preview is the error placeholder,
not the claimed 47-character truncation with ellipsis. -/
theorem long_repr_preview_hits_name_error :
    reprLong.length = 62 ∧
    simple_preview reprLong = "<Error: name \x27preview\x27 is not defined>" ∧
    claimed_simple_preview reprLong =
      "\x27" ++ String.mk (List.replicate 46 'a') ++ "..." ∧
    simple_preview reprLong ≠ claimed_simple_preview reprLong :=
  ⟨by decide, by decide, by decide, by decide⟩

end PyQtCodeEditor
